import Mathlib

/-!
Shallow embedding of `describe.py`: the retry loop `analyze_one`, the URL
resolver `fetch_image_url_with_headers`, response normalization, the tag
display filter inside `print_result`, and the CSV row construction in `main`.
Float confidences are modelled as rationals (the code only copies and
compares them), network and service calls as explicit oracles, and Python
exceptions as an inductive error type returned through `Except`.
-/

namespace Describe

/-- Confidence values: the code only stores and compares them, so rationals
model the floats faithfully for these claims. -/
abbrev Conf := ℚ

/-- Caption dict built at line 124: keys `text` and `confidence`. -/
structure Caption where
  text : Option String
  confidence : Option Conf
deriving DecidableEq, Repr

/-- Normalized tag dict built at lines 115-118: keys `name` and `confidence`. -/
structure Tag where
  name : String
  confidence : Option Conf
deriving DecidableEq, Repr

/-- The six-field result dict returned by `analyze_one` (lines 120-127 and
136/138). `raw` stands for the opaque serialized response. -/
structure AnalysisRecord where
  source : String
  success : Bool
  error : Option String
  caption : Option Caption
  tags : List Tag
  raw : Option String
deriving DecidableEq, Repr

/-- A raw tag object from the service: the four attributes probed by
`getattr` at lines 112-113 (`name`, `text`, `confidence`, `score`), each
possibly absent. -/
structure RawTag where
  name : Option String
  text : Option String
  confidence : Option Conf
  score : Option Conf
deriving DecidableEq, Repr

/-- The possible shapes of `result.tags` probed at lines 102-109: a `values`
attribute, a `list` attribute, a plain sequence, or some other object
(which leaves `raw_tags` empty). -/
inductive TagsShape where
  | valuesAttr (l : List RawTag)
  | listAttr (l : List RawTag)
  | plainList (l : List RawTag)
  | otherShape
deriving DecidableEq, Repr

/-- The caption object: attributes `text`, `content`, `confidence` probed at
lines 95-96. -/
structure RawCaption where
  text : Option String
  content : Option String
  confidence : Option Conf
deriving DecidableEq, Repr

/-- A service response: caption object (possibly absent), tag collection,
and the optional `as_dict` serialization used for `raw` at line 126. -/
structure AnalyzeResult where
  caption : Option RawCaption
  tags : Option TagsShape
  asDict : Option String
deriving DecidableEq, Repr

/-- Python exceptions that can reach the handlers at lines 129-138.
`httpResponseError` carries the status from the `status_code` attribute
(in the SDK `e.response.status_code` agrees with it, so the `or` fallback
at line 130 collapses to this one value). -/
inductive PyError where
  | httpResponseError (status : Option Nat) (msg : String)
  | serviceRequestError (msg : String)
  | serviceResponseError (msg : String)
  | exception (msg : String)
  | fileNotFoundError (msg : String)
deriving DecidableEq, Repr

/-- The Python expression `type(e).__name__`. -/
def errName : PyError → String
  | .httpResponseError _ _ => "HttpResponseError"
  | .serviceRequestError _ => "ServiceRequestError"
  | .serviceResponseError _ => "ServiceResponseError"
  | .exception _ => "Exception"
  | .fileNotFoundError _ => "FileNotFoundError"

/-- The Python expression `str(e)`. -/
def errMsg : PyError → String
  | .httpResponseError _ m => m
  | .serviceRequestError m => m
  | .serviceResponseError m => m
  | .exception m => m
  | .fileNotFoundError m => m

/-- Line 130: `getattr(e, "status_code", None)`; only `HttpResponseError`
carries a status. -/
def errStatus : PyError → Option Nat
  | .httpResponseError s _ => s
  | _ => none

/-- Which exceptions the first handler (line 129) catches. -/
def isAzureError : PyError → Bool
  | .httpResponseError _ _ => true
  | .serviceRequestError _ => true
  | .serviceResponseError _ => true
  | _ => false

/-- Line 131: `isinstance(e, (ServiceRequestError, ServiceResponseError))`. -/
def isTransportError : PyError → Bool
  | .serviceRequestError _ => true
  | .serviceResponseError _ => true
  | _ => false

/-- Line 131: `status in (429, 500, 502, 503, 504)` (false when `None`). -/
def statusRetriable : Option Nat → Bool
  | some s => [429, 500, 502, 503, 504].contains s
  | none => false

/-- Line 131 combined with the handler structure: an error leads to a retry
check only if the first handler catches it, and then `retriable` is the
disjunction at line 131. -/
def willRetry (e : PyError) : Bool :=
  isAzureError e && (statusRetriable (errStatus e) || isTransportError e)

/-- Python `a or b` on optional strings: `None` and `""` are falsy. -/
def pyOrStr : Option String → Option String → Option String
  | some s, b => if s = "" then b else some s
  | none, b => b

/-- Python `a or b` on optional floats: `None` and `0.0` are falsy. -/
def pyOrConf : Option Conf → Option Conf → Option Conf
  | some c, b => if c = 0 then b else some c
  | none, b => b

/-- Lines 99-109: extract `raw_tags` from the shape of `result.tags`. -/
def rawTagsOf : Option TagsShape → List RawTag
  | none => []
  | some (.valuesAttr l) => l
  | some (.listAttr l) => l
  | some (.plainList l) => l
  | some .otherShape => []

/-- Lines 111-118 for one raw tag: `name = t.name or t.text`; dropped when
that is `None`; `conf = t.confidence or t.score`, kept as a float when not
`None` and as `None` otherwise. -/
def normalizeTag (t : RawTag) : Option Tag :=
  match pyOrStr t.name t.text with
  | none => none
  | some nm => some { name := nm, confidence := pyOrConf t.confidence t.score }

/-- Lines 98-118: the normalized `tags_list` in service order. -/
def tags_list (r : AnalyzeResult) : List Tag :=
  (rawTagsOf r.tags).filterMap normalizeTag

/-- Line 95: `getattr(result.caption, "text", None) or getattr(result.caption, "content", None)`. -/
def caption_text (r : AnalyzeResult) : Option String :=
  pyOrStr (r.caption.bind RawCaption.text) (r.caption.bind RawCaption.content)

/-- Line 96: `getattr(result.caption, "confidence", None)`. -/
def caption_conf (r : AnalyzeResult) : Option Conf :=
  r.caption.bind RawCaption.confidence

/-- Comparison of the sort keys `(x["confidence"] is not None, x["confidence"])`
from line 125: `keyLE a b` holds when the key of `a` is at most the key of
`b` in Python tuple order (`None` keys compare below all floats). -/
def keyLE : Option Conf → Option Conf → Bool
  | none, _ => true
  | some _, none => false
  | some x, some y => decide (x ≤ y)

/-- The comparison realized by `sorted(..., key=..., reverse=True)`:
`a` may precede `b` exactly when the key of `a` is at least the key of `b`. -/
def tagGE (a b : Tag) : Bool := keyLE b.confidence a.confidence

/-- Line 125: Python `sorted` is a stable sort, embedded as a stable merge
sort under the descending comparison. -/
def pySortTags (l : List Tag) : List Tag := l.mergeSort tagGE

/-- The success dict of lines 120-127 for the current `source` variable and
the service response. -/
def successRecord (source : String) (result : AnalyzeResult) : AnalysisRecord :=
  { source := source
    success := true
    error := none
    caption := some { text := caption_text result, confidence := caption_conf result }
    tags := pySortTags (tags_list result)
    raw := result.asDict }

/-- The failure dict of lines 136 and 138. -/
def failureRecord (source : String) (e : PyError) : AnalysisRecord :=
  { source := source
    success := false
    error := some (errName e ++ ": " ++ errMsg e)
    caption := none
    tags := []
    raw := none }

/-- Outcome of one execution of the `try` block (lines 81-127 up to the
`return`): either a success with the current value of the `source` variable
and the response, or an exception with the current value of `source`. -/
inductive TryOutcome where
  | ok (source : String) (result : AnalyzeResult)
  | fail (source : String) (e : PyError)
deriving Repr

/-- Character-list version of `str.startswith`. -/
def startsWithList : List Char → List Char → Bool
  | [], _ => true
  | _ :: _, [] => false
  | p :: ps, c :: cs => p == c && startsWithList ps cs

/-- Python `needle in hay` on strings: substring occurrence. -/
def occursIn (needle : List Char) : List Char → Bool
  | [] => needle.isEmpty
  | c :: cs => startsWithList needle (c :: cs) || occursIn needle cs

/-- Python substring test `needle in hay`. -/
def strContains (hay needle : String) : Bool := occursIn needle.toList hay.toList

/-- Line 82: `source.startswith("http://") or source.startswith("https://")`. -/
def isHttpUrl (s : String) : Bool :=
  startsWithList "http://".toList s.toList || startsWithList "https://".toList s.toList

/-- The response object of `session.get`: final (post-redirect) URL and the
`Content-Type` header, absent meaning line 69 falls back to `""`. -/
structure HttpResponse where
  url : String
  contentType : Option String
deriving Repr

/-- Lines 63-71: issue the GET (headers do not affect the modelled outcome),
return `response.url` when the `Content-Type` header contains `"image"`,
else raise a generic `Exception` naming the original URL. An exception
raised by `session.get` itself propagates. -/
def fetch_image_url_with_headers (get : String → Except PyError HttpResponse)
    (url : String) : Except PyError String :=
  match get url with
  | .error e => .error e
  | .ok resp =>
    if strContains (resp.contentType.getD "") "image" then .ok resp.url
    else .error (.exception ("URL did not resolve to a valid image: " ++ url))

/-- Oracles for the external calls made inside one attempt `n`:
`session.get`, `client.analyze_from_url`, and the combined
`open` + `client.analyze` for local paths. -/
structure Env where
  get : Nat → String → Except PyError HttpResponse
  analyzeUrl : Nat → String → Except PyError AnalyzeResult
  openAndAnalyze : Nat → String → Except PyError AnalyzeResult

/-- Lines 81-93: one execution of the `try` block at attempt `n`. For URL
sources the `source` variable is reassigned to the resolved URL at line 83
before the analyze call, so a later exception carries the resolved URL. -/
def tryBody (env : Env) (n : Nat) (source : String) : TryOutcome :=
  if isHttpUrl source then
    match fetch_image_url_with_headers (env.get n) source with
    | .error e => .fail source e
    | .ok s =>
      match env.analyzeUrl n s with
      | .error e => .fail s e
      | .ok r => .ok s r
  else
    match env.openAndAnalyze n source with
    | .error e => .fail source e
    | .ok r => .ok source r

/-- The `while True` loop of lines 79-138, with `rem = retries - attempt`
implementing the `attempt < retries` guard at line 132. Returns the record
together with the total number of attempts made (`attempt + 1` at exit).
When `rem = 0` the guard fails and any error is terminal. -/
def analyzeLoopAux (body : Nat → String → TryOutcome) :
    Nat → Nat → String → AnalysisRecord × Nat
  | 0, attempt, source =>
    match body attempt source with
    | .ok s r => (successRecord s r, attempt + 1)
    | .fail s e => (failureRecord s e, attempt + 1)
  | rem + 1, attempt, source =>
    match body attempt source with
    | .ok s r => (successRecord s r, attempt + 1)
    | .fail s e =>
      if willRetry e then analyzeLoopAux body rem (attempt + 1) s
      else (failureRecord s e, attempt + 1)

/-- The loop entered at attempt index `attempt` with bound `retries`. -/
def analyzeLoop (body : Nat → String → TryOutcome) (retries attempt : Nat)
    (source : String) : AnalysisRecord × Nat :=
  analyzeLoopAux body (retries - attempt) attempt source

/-- Default of the `retries` parameter at line 75. -/
def analyze_one_default_retries : Nat := 4

/-- Lines 75-138: `analyze_one`, returning the record and the number of
attempts made. The pacing and backoff sleeps have no effect on the result. -/
def analyze_one (env : Env) (retries : Nat) (source : String) : AnalysisRecord × Nat :=
  analyzeLoop (tryBody env) retries 0 source

/-- Lines 149-152: the list of tags `print_result` iterates over: the
threshold filter of lines 150-151 followed by the `[:top_k]` slice. -/
def print_result_tags (tags : List Tag) (top_k : Nat) (threshold : Option Conf) :
    List Tag :=
  let filtered :=
    match threshold with
    | none => tags
    | some th => tags.filter fun t => t.confidence.isNone || decide (t.confidence.getD 0 ≥ th)
  filtered.take top_k

/-- A CSV cell as handed to `csv.writer`: a string, Python `None`, or a
float. -/
inductive CsvValue where
  | s (v : String)
  | pyNone
  | num (v : Conf)
deriving DecidableEq, Repr

/-- Line 211: the CSV header row. -/
def csvHeader (top_k : Nat) : List String :=
  ["source", "caption", "caption_confidence"]
    ++ (List.range top_k).map (fun i => "tag_" ++ toString (i + 1))

/-- Lines 213-220: the row written for one record. Failed records get a
source column, two blank caption columns and `top_k` blank tag columns.
Successful records get source, the caption dict values (present keys with
value `None` yield `None`, an absent caption dict yields `""` through
`or {}` and the `.get` default), then the names of the first `top_k` tags,
the whole row truncated to the header length. -/
def csvRow (e : AnalysisRecord) (top_k : Nat) : List CsvValue :=
  if e.success = false then
    [CsvValue.s e.source, CsvValue.s "", CsvValue.s ""]
      ++ List.replicate top_k (CsvValue.s "")
  else
    let textCell :=
      match e.caption with
      | none => CsvValue.s ""
      | some c =>
        match c.text with
        | none => CsvValue.pyNone
        | some s => CsvValue.s s
    let confCell :=
      match e.caption with
      | none => CsvValue.s ""
      | some c =>
        match c.confidence with
        | none => CsvValue.pyNone
        | some q => CsvValue.num q
    ([CsvValue.s e.source, textCell, confCell]
        ++ (e.tags.take top_k).map (fun t => CsvValue.s t.name)).take (csvHeader top_k).length

/-- A service simulated to always answer 503: every oracle raises the same
`HttpResponseError`. -/
def env503 (msg : String) : Env :=
  { get := fun _ _ => .error (.httpResponseError (some 503) msg)
    analyzeUrl := fun _ _ => .error (.httpResponseError (some 503) msg)
    openAndAnalyze := fun _ _ => .error (.httpResponseError (some 503) msg) }

/-- The retriable classification exactly as the spec words it: a service
error carrying one of the five listed statuses, or one of the two transport
error kinds. -/
def specRetriable (e : PyError) : Prop :=
  (∃ st m, e = PyError.httpResponseError (some st) m ∧
      st ∈ ([429, 500, 502, 503, 504] : List Nat)) ∨
  (∃ m, e = PyError.serviceRequestError m) ∨
  (∃ m, e = PyError.serviceResponseError m)

/-- A body whose single attempt raises `FileNotFoundError`, as `open` does
for a missing local path. -/
def bodyFNF : Nat → String → TryOutcome :=
  fun _ s => TryOutcome.fail s (PyError.fileNotFoundError "missing")

/-- A GET oracle answering with an image response after a redirect. -/
def getImg : String → Except PyError HttpResponse :=
  fun _ => .ok { url := "https://cdn.example/img.jpg", contentType := some "image/jpeg" }

/-- A GET oracle answering with an HTML page. -/
def getHtml : String → Except PyError HttpResponse :=
  fun _ => .ok { url := "https://x.example/page", contentType := some "text/html" }

/-- Resolution succeeds (redirecting to a CDN URL) but the analyze call then
raises a terminal error. -/
def env10 : Env :=
  { get := fun _ _ => .ok { url := "https://cdn.example/img.jpg", contentType := some "image/png" }
    analyzeUrl := fun _ _ => .error (.exception "analyze failed")
    openAndAnalyze := fun _ _ => .error (.exception "not used") }

/-- A successful record with fewer tags than `top_k`. -/
def c8SuccessRec : AnalysisRecord :=
  { source := "img.png"
    success := true
    error := none
    caption := some { text := some "a cat", confidence := some 0.9 }
    tags := []
    raw := none }

/-- A raw tag whose reported confidence and score are both exactly 0.0. -/
def c9RawTag : RawTag :=
  { name := some "x", text := none, confidence := some 0, score := some 0 }

/-! ### Lemmas about the sort comparison -/

theorem keyLE_refl (x : Option Conf) : keyLE x x = true := by
  cases x with
  | none => rfl
  | some c => simp [keyLE]

theorem keyLE_trans {x y z : Option Conf} (h1 : keyLE x y = true)
    (h2 : keyLE y z = true) : keyLE x z = true := by
  cases x <;> cases y <;> cases z <;> simp [keyLE] at h1 h2 ⊢
  exact le_trans h1 h2

theorem keyLE_total (x y : Option Conf) : (keyLE x y || keyLE y x) = true := by
  cases x <;> cases y <;> simp [keyLE]
  exact le_total _ _

theorem tagGE_trans (a b c : Tag) (h1 : tagGE a b = true) (h2 : tagGE b c = true) :
    tagGE a c = true :=
  keyLE_trans h2 h1

theorem tagGE_total (a b : Tag) : (tagGE a b || tagGE b a) = true :=
  keyLE_total b.confidence a.confidence

theorem pySortTags_perm (l : List Tag) : (pySortTags l).Perm l :=
  List.mergeSort_perm l tagGE

theorem pySortTags_pairwise (l : List Tag) :
    (pySortTags l).Pairwise (fun a b => tagGE a b = true) :=
  List.sorted_mergeSort tagGE_trans tagGE_total l

/-- Stability of the embedded sort: the elements whose confidence equals any
fixed value keep their original relative order. Two tags tie under the sort
key of line 125 exactly when their confidence fields are equal. -/
theorem pySortTags_filter_eq (l : List Tag) (c : Option Conf) :
    (pySortTags l).filter (fun t => decide (t.confidence = c)) =
      l.filter (fun t => decide (t.confidence = c)) := by
  set p : Tag → Bool := fun t => decide (t.confidence = c) with hp
  have hpair : (l.filter p).Pairwise (fun a b => tagGE a b = true) := by
    apply List.pairwise_of_forall_mem_list
    intro a ha b hb
    have ha2 : a.confidence = c := by simpa [hp] using (List.mem_filter.mp ha).2
    have hb2 : b.confidence = c := by simpa [hp] using (List.mem_filter.mp hb).2
    simp only [tagGE, ha2, hb2]
    exact keyLE_refl c
  have hsub : (l.filter p).Sublist (pySortTags l) :=
    List.sublist_mergeSort tagGE_trans tagGE_total hpair (List.filter_sublist l)
  have hsubf : (l.filter p).Sublist ((pySortTags l).filter p) := by
    have hself : (l.filter p).filter p = l.filter p := by
      apply List.filter_eq_self.mpr
      intro a ha
      exact (List.mem_filter.mp ha).2
    have hstep := List.Sublist.filter p hsub
    rwa [hself] at hstep
  have hlen : (l.filter p).length = ((pySortTags l).filter p).length :=
    (List.Perm.filter p (pySortTags_perm l)).length_eq.symm
  exact (hsubf.eq_of_length hlen).symm

/-! ### Lemmas about the retry loop -/

/-- Every run of the loop ends in one of the two canonical return dicts. -/
theorem analyzeLoopAux_shape (body : Nat → String → TryOutcome) (rem : Nat) :
    ∀ (attempt : Nat) (source : String),
      (∃ s r n, analyzeLoopAux body rem attempt source = (successRecord s r, n)) ∨
      (∃ s e n, analyzeLoopAux body rem attempt source = (failureRecord s e, n)) := by
  induction rem with
  | zero =>
    intro attempt source
    cases h : body attempt source with
    | ok s r => exact Or.inl ⟨s, r, attempt + 1, by simp [analyzeLoopAux, h]⟩
    | fail s e => exact Or.inr ⟨s, e, attempt + 1, by simp [analyzeLoopAux, h]⟩
  | succ rem ih =>
    intro attempt source
    cases h : body attempt source with
    | ok s r => exact Or.inl ⟨s, r, attempt + 1, by simp [analyzeLoopAux, h]⟩
    | fail s e =>
      by_cases hw : willRetry e = true
      · have := ih (attempt + 1) s
        simpa [analyzeLoopAux, h, hw] using this
      · exact Or.inr ⟨s, e, attempt + 1, by simp [analyzeLoopAux, h, hw]⟩

/-- When every attempt fails with one fixed retriable error, the loop runs
out of budget and returns the failure record after `rem + 1` attempts. -/
theorem analyzeLoopAux_fail_const (body : Nat → String → TryOutcome) (e : PyError)
    (hw : willRetry e = true) (hb : ∀ n s, body n s = TryOutcome.fail s e) (rem : Nat) :
    ∀ (attempt : Nat) (source : String),
      analyzeLoopAux body rem attempt source = (failureRecord source e, attempt + rem + 1) := by
  induction rem with
  | zero =>
    intro attempt source
    simp [analyzeLoopAux, hb]
  | succ rem ih =>
    intro attempt source
    have hstep : analyzeLoopAux body (rem + 1) attempt source =
        analyzeLoopAux body rem (attempt + 1) source := by
      simp [analyzeLoopAux, hb, hw]
    rw [hstep, ih]
    congr 1
    omega

/-- One retry step of the loop: a retriable error with budget remaining
moves to the next attempt with the current `source` value. -/
theorem analyzeLoop_retry_step (body : Nat → String → TryOutcome)
    (retries attempt : Nat) (source s : String) (e : PyError)
    (hlt : attempt < retries) (hb : body attempt source = TryOutcome.fail s e)
    (hw : willRetry e = true) :
    analyzeLoop body retries attempt source = analyzeLoop body retries (attempt + 1) s := by
  have hrem : retries - attempt = (retries - (attempt + 1)) + 1 := by omega
  rw [analyzeLoop, hrem]
  simp [analyzeLoopAux, hb, hw]
  rfl

/-- A retriable error with no budget left returns the failure record. -/
theorem analyzeLoop_exhausted (body : Nat → String → TryOutcome)
    (retries attempt : Nat) (source s : String) (e : PyError)
    (hge : retries ≤ attempt) (hb : body attempt source = TryOutcome.fail s e) :
    analyzeLoop body retries attempt source = (failureRecord s e, attempt + 1) := by
  have hrem : retries - attempt = 0 := by omega
  rw [analyzeLoop, hrem]
  simp [analyzeLoopAux, hb]

/-- A non-retriable error returns the failure record at once, whatever the
remaining budget. -/
theorem analyzeLoop_terminal (body : Nat → String → TryOutcome)
    (retries attempt : Nat) (source s : String) (e : PyError)
    (hb : body attempt source = TryOutcome.fail s e) (hw : willRetry e = false) :
    analyzeLoop body retries attempt source = (failureRecord s e, attempt + 1) := by
  rw [analyzeLoop]
  cases hrem : retries - attempt with
  | zero => simp [analyzeLoopAux, hb]
  | succ rem => simp [analyzeLoopAux, hb, hw]

/-! ### Claims -/

/-- C1: for every record returned by `analyze_one`, the conditions
`success == false`, `error != null` and (`caption == null` and `tags == []`)
are pairwise equivalent, and a failure additionally has null `raw`. -/
theorem C1_record_invariant (env : Env) (retries : Nat) (source : String) :
    ((analyze_one env retries source).1.success = false ↔
        (analyze_one env retries source).1.error ≠ none) ∧
    ((analyze_one env retries source).1.success = false ↔
        ((analyze_one env retries source).1.caption = none ∧
          (analyze_one env retries source).1.tags = [])) ∧
    ((analyze_one env retries source).1.success = false →
        (analyze_one env retries source).1.raw = none) := by
  rcases analyzeLoopAux_shape (tryBody env) retries 0 source with
    ⟨s, r, n, h⟩ | ⟨s, e, n, h⟩ <;>
    simp [analyze_one, analyzeLoop, h, successRecord, failureRecord]

/-- C5: `analyze_one` never raises: for every source string and every
behaviour of the resolver and analyze oracles it is a total function whose
value is one of the two canonical six-field records (all of `source`,
`success`, `error`, `caption`, `tags`, `raw` populated). -/
theorem C5_always_wellformed_record (env : Env) (retries : Nat) (source : String) :
    (∃ s r, (analyze_one env retries source).1 = successRecord s r) ∨
    (∃ s e, (analyze_one env retries source).1 = failureRecord s e) := by
  rcases analyzeLoopAux_shape (tryBody env) retries 0 source with
    ⟨s, r, n, h⟩ | ⟨s, e, n, h⟩
  · exact Or.inl ⟨s, r, by simp [analyze_one, analyzeLoop, h]⟩
  · exact Or.inr ⟨s, e, by simp [analyze_one, analyzeLoop, h]⟩

/-- C3: when every attempt raises a service error with HTTP status 503,
`analyze_one` makes exactly `retries + 1` attempts and returns a failure
record whose error string is the error kind and message. -/
theorem C3_retry_exhaustion (env : Env) (retries : Nat) (source msg : String)
    (h : ∀ n s, tryBody env n s =
      TryOutcome.fail s (PyError.httpResponseError (some 503) msg)) :
    analyze_one env retries source =
      (failureRecord source (PyError.httpResponseError (some 503) msg), retries + 1) ∧
    (analyze_one env retries source).1.error = some ("HttpResponseError: " ++ msg) := by
  have hw : willRetry (PyError.httpResponseError (some 503) msg) = true := rfl
  have hmain := analyzeLoopAux_fail_const (tryBody env)
    (PyError.httpResponseError (some 503) msg) hw h (retries - 0) 0 source
  constructor
  · rw [analyze_one, analyzeLoop, hmain]
    congr 1
    omega
  · rw [analyze_one, analyzeLoop, hmain]
    rfl

theorem env503_body (msg : String) (n : Nat) (s : String) :
    tryBody (env503 msg) n s =
      TryOutcome.fail s (PyError.httpResponseError (some 503) msg) := by
  rw [tryBody]
  split <;> rfl

/-- Witness for C3 at the default `retries = 4`: exactly 5 attempts. -/
theorem C3_retry_exhaustion_witness :
    analyze_one (env503 "boom") analyze_one_default_retries "img.png" =
      (failureRecord "img.png" (PyError.httpResponseError (some 503) "boom"), 5) ∧
    (analyze_one (env503 "boom") analyze_one_default_retries "img.png").1.error =
      some ("HttpResponseError: " ++ "boom") :=
  C3_retry_exhaustion (env503 "boom") 4 "img.png" "boom" (env503_body "boom")

/-- C2: the `tags` field of a successful record is the normalized list run
through the stable descending sort of line 125: a permutation, pairwise
descending on the key, null confidences never before non-null ones, and
every confidence class keeps its original service order. -/
theorem C2_tags_sorted_stable :
    (∀ (src : String) (res : AnalyzeResult),
        (successRecord src res).tags = pySortTags (tags_list res)) ∧
    (∀ l : List Tag,
        (pySortTags l).Perm l ∧
        (pySortTags l).Pairwise (fun a b => tagGE a b = true) ∧
        (pySortTags l).Pairwise
          (fun a b => ¬(a.confidence = none ∧ b.confidence ≠ none)) ∧
        (∀ c : Option Conf,
          (pySortTags l).filter (fun t => decide (t.confidence = c)) =
            l.filter (fun t => decide (t.confidence = c)))) := by
  refine ⟨fun src res => rfl, fun l => ⟨pySortTags_perm l, pySortTags_pairwise l, ?_,
    pySortTags_filter_eq l⟩⟩
  refine (pySortTags_pairwise l).imp ?_
  intro a b hab ⟨ha, hb⟩
  rw [tagGE, ha] at hab
  cases hcb : b.confidence with
  | none => exact hb hcb
  | some q =>
    rw [hcb] at hab
    simp [keyLE] at hab

/-- C4: the loop retries exactly the errors of `specRetriable` (status in
{429, 500, 502, 503, 504} or transport failure) while attempts remain; every
other exception, URL-resolution failure and file-not-found included, yields
the failure record immediately, after this one attempt. -/
theorem C4_retry_classification :
    (∀ e : PyError, willRetry e = true ↔ specRetriable e) ∧
    (∀ (body : Nat → String → TryOutcome) (retries attempt : Nat) (source s : String)
        (e : PyError), body attempt source = TryOutcome.fail s e →
      (willRetry e = true → attempt < retries →
        analyzeLoop body retries attempt source = analyzeLoop body retries (attempt + 1) s) ∧
      (willRetry e = true → retries ≤ attempt →
        analyzeLoop body retries attempt source = (failureRecord s e, attempt + 1)) ∧
      (willRetry e = false →
        analyzeLoop body retries attempt source = (failureRecord s e, attempt + 1))) := by
  constructor
  · intro e
    cases e with
    | httpResponseError st m =>
      cases st <;> simp [willRetry, isAzureError, errStatus, statusRetriable,
        isTransportError, specRetriable]
    | serviceRequestError m => simp [willRetry, isAzureError, errStatus, statusRetriable,
        isTransportError, specRetriable]
    | serviceResponseError m => simp [willRetry, isAzureError, errStatus, statusRetriable,
        isTransportError, specRetriable]
    | exception m => simp [willRetry, isAzureError, specRetriable]
    | fileNotFoundError m => simp [willRetry, isAzureError, specRetriable]
  · intro body retries attempt source s e hb
    exact ⟨fun hw hlt => analyzeLoop_retry_step body retries attempt source s e hlt hb hw,
      fun hw hge => analyzeLoop_exhausted body retries attempt source s e hge hb,
      fun hw => analyzeLoop_terminal body retries attempt source s e hb hw⟩

/-- Witness for C4: a `FileNotFoundError` is classified non-retriable and the
loop returns the failure record after the single attempt, with budget left. -/
theorem C4_retry_classification_witness :
    (willRetry (PyError.fileNotFoundError "missing") = true ↔
        specRetriable (PyError.fileNotFoundError "missing")) ∧
    analyzeLoop bodyFNF 4 0 "a.png" =
      (failureRecord "a.png" (PyError.fileNotFoundError "missing"), 1) :=
  ⟨C4_retry_classification.1 (PyError.fileNotFoundError "missing"),
    (C4_retry_classification.2 bodyFNF 4 0 "a.png" "a.png"
      (PyError.fileNotFoundError "missing") rfl).2.2 rfl⟩

theorem startsWithList_self (l : List Char) : startsWithList l l = true := by
  induction l with
  | nil => rfl
  | cons c cs ih => simp [startsWithList, ih]

theorem occursIn_append (pre needle rest : List Char)
    (h : startsWithList needle rest = true) : occursIn needle (pre ++ rest) = true := by
  induction pre with
  | nil =>
    cases rest with
    | nil =>
      cases needle with
      | nil => rfl
      | cons c cs => exact absurd h (by simp [startsWithList])
    | cons c cs => simp [occursIn, h]
  | cons p ps ih => simp [occursIn, ih]

/-- A string occurs as a substring of any string it is appended to. -/
theorem strContains_append_self (p url : String) : strContains (p ++ url) url = true := by
  rw [strContains]
  have hdata : (p ++ url).toList = p.toList ++ url.toList := String.data_append p url
  rw [hdata]
  exact occursIn_append p.toList url.toList url.toList (startsWithList_self url.toList)

/-- C6: given the GET response for an http(s) URL, the resolver returns the
final post-redirect URL exactly when the `Content-Type` header contains
`"image"`; otherwise it raises an `Exception` whose message names the
original URL, and such an exception is classified non-retriable, so the loop
returns the failure record immediately. -/
theorem C6_url_resolver (get : String → Except PyError HttpResponse) (url : String)
    (resp : HttpResponse) (hg : get url = Except.ok resp) :
    (strContains (resp.contentType.getD "") "image" = true →
      fetch_image_url_with_headers get url = Except.ok resp.url) ∧
    (strContains (resp.contentType.getD "") "image" = false →
      fetch_image_url_with_headers get url =
        Except.error (PyError.exception ("URL did not resolve to a valid image: " ++ url)) ∧
      strContains ("URL did not resolve to a valid image: " ++ url) url = true ∧
      willRetry (PyError.exception ("URL did not resolve to a valid image: " ++ url)) = false) ∧
    (∀ (env : Env) (retries attempt : Nat) (m : String),
      isHttpUrl url = true →
      fetch_image_url_with_headers (env.get attempt) url =
        Except.error (PyError.exception m) →
      analyzeLoop (tryBody env) retries attempt url =
        (failureRecord url (PyError.exception m), attempt + 1)) := by
  refine ⟨?_, ?_, ?_⟩
  · intro h
    rw [fetch_image_url_with_headers, hg]
    simp [h]
  · intro h
    refine ⟨?_, strContains_append_self "URL did not resolve to a valid image: " url, rfl⟩
    rw [fetch_image_url_with_headers, hg]
    simp [h]
  · intro env retries attempt m h1 h2
    have hb : tryBody env attempt url = TryOutcome.fail url (PyError.exception m) := by
      rw [tryBody]
      simp [h1, h2]
    exact analyzeLoop_terminal (tryBody env) retries attempt url url
      (PyError.exception m) hb rfl

/-- Witness for C6: an image response resolves to the final URL; an HTML
response raises the descriptive exception. -/
theorem C6_url_resolver_witness :
    fetch_image_url_with_headers getImg "https://x.example/a" =
      Except.ok "https://cdn.example/img.jpg" ∧
    fetch_image_url_with_headers getHtml "https://x.example/a" =
      Except.error
        (PyError.exception ("URL did not resolve to a valid image: " ++ "https://x.example/a")) :=
  ⟨(C6_url_resolver getImg "https://x.example/a"
      { url := "https://cdn.example/img.jpg", contentType := some "image/jpeg" } rfl).1
      (by decide),
    ((C6_url_resolver getHtml "https://x.example/a"
      { url := "https://x.example/page", contentType := some "text/html" } rfl).2.1
      (by decide)).1⟩

/-- C10: when resolution succeeds and the analyze call then fails with a
non-retriable error, the failure record carries the resolved post-redirect
URL in `source`, because line 83 reassigned `source` before the outcome was
known. -/
theorem C10_failure_source_resolved (env : Env) (retries attempt : Nat)
    (src resolved : String) (e : PyError)
    (h1 : isHttpUrl src = true)
    (h2 : fetch_image_url_with_headers (env.get attempt) src = Except.ok resolved)
    (h3 : env.analyzeUrl attempt resolved = Except.error e)
    (h4 : willRetry e = false) :
    analyzeLoop (tryBody env) retries attempt src = (failureRecord resolved e, attempt + 1) ∧
    (failureRecord resolved e).source = resolved := by
  have hb : tryBody env attempt src = TryOutcome.fail resolved e := by
    rw [tryBody]
    simp [h1, h2, h3]
  exact ⟨analyzeLoop_terminal (tryBody env) retries attempt src resolved e hb h4, rfl⟩

/-- Witness for C10: the failure record names the CDN URL, not the original
source string. -/
theorem C10_failure_source_resolved_witness :
    analyzeLoop (tryBody env10) 4 0 "https://x.example/p" =
      (failureRecord "https://cdn.example/img.jpg" (PyError.exception "analyze failed"), 1) :=
  (C10_failure_source_resolved env10 4 0 "https://x.example/p"
    "https://cdn.example/img.jpg" (PyError.exception "analyze failed")
    rfl rfl rfl rfl).1

/-- C7: with a threshold, `print_result` displays the first `top_k` tags of
the list obtained by dropping exactly the tags whose confidence is non-null
and below the threshold; null-confidence tags always pass. On the tags
A at 0.9, B at 0.2, C at null, with threshold 0.5, it displays A then C. -/
theorem C7_threshold_filter :
    (∀ (tags : List Tag) (top_k : Nat) (th : Conf),
      print_result_tags tags top_k (some th) =
        (tags.filter fun t =>
          decide (¬(t.confidence ≠ none ∧ t.confidence.getD 0 < th))).take top_k) ∧
    print_result_tags
        [{ name := "A", confidence := some 0.9 }, { name := "B", confidence := some 0.2 },
          { name := "C", confidence := none }] 5 (some 0.5) =
      [{ name := "A", confidence := some 0.9 }, { name := "C", confidence := none }] := by
  constructor
  · intro tags top_k th
    simp only [print_result_tags]
    congr 1
    apply List.filter_congr
    intro t _
    cases hc : t.confidence with
    | none => simp [hc]
    | some q => simp [hc, not_lt]
  · norm_num [print_result_tags, List.filter]

/-- Length of the CSV header row. -/
theorem csvHeader_length (top_k : Nat) : (csvHeader top_k).length = 3 + top_k := by
  simp [csvHeader]
  omega

/-- Counterexample to C8: for a successful record with no tags and
`top_k = 5` the written row has 3 columns, not 3 + 5: success rows are
truncated to the header length but never blank-padded. -/
theorem C8_csv_counterexample : (csvRow c8SuccessRec 5).length ≠ 3 + 5 := by decide

/-- C8 amended: rows for failed records have exactly `3 + top_k` columns
with blank caption and tag cells; rows for successful records have
`3 + min(number of tags, top_k)` columns, with no blank padding. -/
theorem C8_csv_row_columns (e : AnalysisRecord) (top_k : Nat) :
    (e.success = false →
      csvRow e top_k =
        [CsvValue.s e.source, CsvValue.s "", CsvValue.s ""] ++
          List.replicate top_k (CsvValue.s "") ∧
      (csvRow e top_k).length = 3 + top_k) ∧
    (e.success = true →
      (csvRow e top_k).length = 3 + min e.tags.length top_k) := by
  constructor
  · intro h
    refine ⟨by simp [csvRow, h], ?_⟩
    simp [csvRow, h]
    omega
  · intro h
    simp [csvRow, h, csvHeader_length, List.length_take, List.length_append,
      List.length_map]
    omega

/-- Witness for C8 amended: a failed record at `top_k = 2` and the tagless
success record at `top_k = 5`. -/
theorem C8_csv_row_columns_witness :
    csvRow (failureRecord "bad.png" (PyError.exception "missing")) 2 =
      [CsvValue.s "bad.png", CsvValue.s "", CsvValue.s "", CsvValue.s "", CsvValue.s ""] ∧
    (csvRow (failureRecord "bad.png" (PyError.exception "missing")) 2).length = 3 + 2 ∧
    (csvRow c8SuccessRec 5).length = 3 + min c8SuccessRec.tags.length 5 := by
  have h1 := (C8_csv_row_columns (failureRecord "bad.png" (PyError.exception "missing")) 2).1 rfl
  have h2 := (C8_csv_row_columns c8SuccessRec 5).2 rfl
  exact ⟨by simpa [failureRecord] using h1.1, h1.2, h2⟩

/-- Counterexample to C9: a raw tag reporting confidence 0.0 and score 0.0
normalizes to confidence 0.0 — the `or` falls through to `score`, and a
score of 0.0 is not `None`, so the result is 0.0 after all. -/
theorem C9_zero_confidence_counterexample :
    c9RawTag.confidence = some 0 ∧
    normalizeTag c9RawTag = some { name := "x", confidence := some 0 } ∧
    ¬(∀ t : RawTag, t.confidence = some 0 →
        ∀ tg : Tag, normalizeTag t = some tg → tg.confidence ≠ some 0) := by
  refine ⟨rfl, by decide, ?_⟩
  intro h
  exact h c9RawTag rfl { name := "x", confidence := some 0 } (by decide) rfl

/-- C9 amended: a raw tag with confidence exactly 0.0 never keeps that
attribute; the normalized confidence is the raw `score` value (null when
`score` is null, but 0.0 again when `score` is 0.0). -/
theorem C9_zero_confidence_falls_to_score (t : RawTag) (nm : String)
    (hc : t.confidence = some 0) (hn : pyOrStr t.name t.text = some nm) :
    normalizeTag t = some { name := nm, confidence := t.score } := by
  simp [normalizeTag, hn, hc, pyOrConf]

/-- Witness for C9 amended: confidence 0.0 with no score yields a null
confidence. -/
theorem C9_zero_confidence_falls_to_score_witness :
    normalizeTag { name := some "x", text := none, confidence := some 0, score := none } =
      some { name := "x", confidence := none } := by
  have h := C9_zero_confidence_falls_to_score
    { name := some "x", text := none, confidence := some 0, score := none } "x" rfl rfl
  simpa using h

end Describe
